import Mathlib

/-!
Verification of the capability-catalog engine in `src/utils/tools.py`
(`ToolRegistry`, its scanner `scan_and_register_tools`, and the schema /
example derivation helpers), as a shallow embedding.

Modelling conventions:
* Python JSON-able values are `Json`; Python dicts are insertion-ordered
  string-keyed maps (`JMap`), where assigning to an existing key keeps its
  position and assigning a fresh key appends.
* Python type objects, as seen by the reflection in `tools.py`
  (`is`-checks against builtins, `get_origin`/`get_args`, `__members__`,
  `model_json_schema`, ...), are the inductive `Ty`.
* Code that can raise is embedded in `Except String`; the `try/except`
  blocks of the source become the `.error` handlers of the outer wrappers.
-/

namespace MCPTools

mutual

/-- A JSON-able Python value.  Floats are carried as rationals. -/
inductive Json where
  | null : Json
  | bool (b : Bool) : Json
  | int (n : Int) : Json
  | num (q : ℚ) : Json
  | str (s : String) : Json
  | arr (xs : JArr) : Json
  | obj (kvs : JMap) : Json

/-- A JSON array (spine kept separate from `List` so that all recursion over
nested values is plain structural mutual recursion). -/
inductive JArr where
  | nil : JArr
  | cons (x : Json) (rest : JArr) : JArr

/-- A Python dict with string keys: an insertion-ordered association map. -/
inductive JMap where
  | nil : JMap
  | cons (k : String) (v : Json) (rest : JMap) : JMap

end

deriving instance DecidableEq for Json, JArr, JMap

/-- Python dict read: `d.get(k)` / `d[k]`. -/
def JMap.get : JMap → String → Option Json
  | .nil, _ => none
  | .cons k v rest, key => if k = key then some v else JMap.get rest key

/-- Python dict write `d[k] = v`: overwrite in place, else append. -/
def JMap.set : JMap → String → Json → JMap
  | .nil, key, val => .cons key val .nil
  | .cons k v rest, key, val =>
      if k = key then .cons key val rest else .cons k v (JMap.set rest key val)

/-- Python membership test `k in d`. -/
def JMap.hasKey (m : JMap) (k : String) : Bool := (m.get k).isSome

/-- Build a `JMap` from a literal list of pairs (Python dict literal). -/
def JMap.ofList : List (String × Json) → JMap
  | [] => .nil
  | (k, v) :: rest => .cons k v (JMap.ofList rest)

/-- Build a `JArr` from a list. -/
def JArr.ofList : List Json → JArr
  | [] => .nil
  | x :: rest => .cons x (JArr.ofList rest)

/-- The elements of a `JArr` as a list. -/
def JArr.toList : JArr → List Json
  | .nil => []
  | .cons x rest => x :: JArr.toList rest

/-- Python truthiness of a JSON-able value (`bool(x)`). -/
def pyTruthy : Json → Bool
  | .null => false
  | .bool b => b
  | .int n => n != 0
  | .num q => q != 0
  | .str s => !s.isEmpty
  | .arr .nil => false
  | .arr (.cons _ _) => true
  | .obj .nil => false
  | .obj (.cons _ _ _) => true

/-- Python `str(x)` for the values the engine renders into descriptions and
dictionary-example keys.  Container rendering is approximated; the source
only ever applies `str` to scalars. -/
def pyStr : Json → String
  | .null => "None"
  | .bool true => "True"
  | .bool false => "False"
  | .int n => toString n
  | .num q => toString q
  | .str s => s
  | .arr _ => "[...]"
  | .obj _ => "\x7b...\x7d"

/-!  Python string methods, implemented structurally over the character
list so that every proof can evaluate them (`str.split`, `str.strip`,
`str.startswith`, `str.endswith`, `str.upper`).  -/

/-- `str.split(sep)` for a one-character separator, empty pieces kept. -/
def chSplit (sep : Char) : List Char → List (List Char)
  | [] => [[]]
  | c :: rest =>
      let r := chSplit sep rest
      if c = sep then [] :: r
      else match r with
        | [] => [[c]]
        | g :: gs => (c :: g) :: gs

/-- `s.split(sep)` on strings. -/
def pySplit (sep : Char) (s : String) : List String :=
  (chSplit sep s.data).map String.mk

/-- `s.startswith(pre)`. -/
def pyStartsWith (s pre : String) : Bool := pre.data.isPrefixOf s.data

/-- `s.endswith(suf)`. -/
def pyEndsWith (s suf : String) : Bool :=
  suf.data.reverse.isPrefixOf s.data.reverse

/-- The whitespace characters `str.strip()` removes (the ones that occur
in docstrings). -/
def isSpaceCh (c : Char) : Bool :=
  c = ' ' || c = '\n' || c = '\t' || c = '\r'

/-- `s.strip()`. -/
def pyStrip (s : String) : String :=
  String.mk (((s.data.dropWhile isSpaceCh).reverse.dropWhile isSpaceCh).reverse)

/-- `s.upper()`. -/
def pyUpper (s : String) : String := String.mk (s.data.map Char.toUpper)

/-- `doc.split("\n")[0].strip()` applied to a (possibly absent) docstring
that is itself truth-tested first, as in
`if doc: doc_description = doc.split("\n")[0].strip()`. -/
def firstLineDesc (doc : Option String) : Option String :=
  match doc with
  | none => none
  | some d =>
      if d.isEmpty then none
      else some (pyStrip ((pySplit '\n' d).headD d))

/-- `schema.get("description", dflt)` rendered as text (the source
interpolates it into f-strings). -/
def getDescD (m : JMap) (dflt : String) : String :=
  match m.get "description" with
  | some j => pyStr j
  | none => dflt

/-!  ## The engine's view of Python type objects  -/

/-- What the engine can observe of a Pydantic model class, other than its
field list: its class name, its `__doc__`, the `model_json_schema()` output
(produced by the external Pydantic library and taken as given), and the
outcomes of the example-producing calls the engine makes on it
(`Config.schema_extra["example"]`, a parseable `Example:` block in the
docstring, `model_type().model_dump()`, and
`model_type.model_construct().model_dump()` — the last two are `none`
when the call raises). -/
structure MInfo where
  name : String
  doc : Option String
  jsonSchema : JMap
  configExample : Option Json
  docExample : Option Json
  defaultDump : Option Json
  constructDump : Option Json

mutual

/-- A Python type object as observed by the reflection in `tools.py`:
`is`-identity with builtins, `typing.get_origin`/`get_args`, attribute
probes (`__members__`, `model_json_schema`, `model_fields`), `__doc__`
and `__name__`.
* `noneT` is the annotation `None` (so `type_hint is None` holds for it).
* `list0`/`dict0` are the bare builtins `list`/`dict` (also covering
  un-parameterised `typing.List`/`typing.Dict`, which convert identically).
* `dt` is `datetime.datetime`.
* `union` is a `typing.Union[...]`; `Optional[T]` is `union` containing
  `noneT`.
* `enum` is a standard-library `Enum` subclass with its declared member
  names in order.
* `pmodel` is a Pydantic model class with its field list.
* `raising` is a type whose Pydantic schema generation
  (`model_json_schema()`) raises — the source of the exceptions the
  engine's `try/except` blocks catch.
* `unknown` is any other type (matched by no reflection probe). -/
inductive Ty where
  | str : Ty
  | int : Ty
  | float : Ty
  | bool : Ty
  | noneT : Ty
  | list0 : Ty
  | dict0 : Ty
  | dt : Ty
  | listOf (t : Ty) : Ty
  | dictOf (k v : Ty) : Ty
  | union (ts : Tys) : Ty
  | enum (nm : String) (doc : Option String) (members : List String) : Ty
  | pmodel (info : MInfo) (fields : Fields) : Ty
  | raising (msg : String) : Ty
  | unknown (nm : String) (doc : Option String) : Ty

/-- A list of types (spine for `Union` arguments). -/
inductive Tys where
  | nil : Tys
  | cons (t : Ty) (rest : Tys) : Tys

/-- A Pydantic model's `model_fields`, in declaration order: field name,
`field.annotation` (as guarded by `hasattr(field, "annotation")`), and the
`"example"` entry of `field.json_schema_extra` when present. -/
inductive Fields where
  | nil : Fields
  | cons (name : String) (ann : Option Ty) (fieldExample : Option Json)
      (rest : Fields) : Fields

end

/-- `getattr(type_hint, "__name__", str(type_hint))`, for the names the
engine interpolates into descriptions. -/
def Ty.pyName : Ty → String
  | .str => "str"
  | .int => "int"
  | .float => "float"
  | .bool => "bool"
  | .noneT => "NoneType"
  | .list0 => "list"
  | .dict0 => "dict"
  | .dt => "datetime"
  | .listOf _ => "list"
  | .dictOf _ _ => "dict"
  | .union _ => "Union"
  | .enum nm _ _ => nm
  | .pmodel info _ => info.name
  | .raising _ => "RaisingModel"
  | .unknown nm _ => nm

/-- `hasattr(type_hint, "__members__")`: true exactly for `Enum` classes. -/
def Ty.hasMembersAttr : Ty → Bool
  | .enum _ _ _ => true
  | _ => false

/-- `hasattr(type_hint, "__enum__")`.  CPython `Enum` classes define
`__members__` but no `__enum__` attribute (checked against CPython 3.11),
so this probe is false for every type the engine can meet; the branches
guarded by it in `_type_to_schema` and `_generate_field_example` are
unreachable. -/
def Ty.hasEnumAttr : Ty → Bool := fun _ => false

/-- `hasattr(annotation, "model_json_schema")`: true for Pydantic model
classes (including ones whose schema generation raises). -/
def Ty.hasMJS : Ty → Bool
  | .pmodel _ _ => true
  | .raising _ => true
  | _ => false

/-- Membership of `noneT` in a `Union`'s argument list
(`type(None) in args`). -/
def Tys.hasNone : Tys → Bool
  | .nil => false
  | .cons .noneT _ => true
  | .cons _ rest => Tys.hasNone rest

/-- `[arg for arg in args if arg is not type(None)]`. -/
def Tys.nonNone : Tys → List Ty
  | .nil => []
  | .cons .noneT rest => Tys.nonNone rest
  | .cons t rest => t :: Tys.nonNone rest

/-- The fallback schema of `_type_to_schema`
(`tools.py:816-819`): a generic object tagged with the type's name. -/
def fallbackSchema (nm : String) : JMap :=
  JMap.ofList [("type", .str "object"),
               ("description", .str ("Object of type " ++ nm))]

/-- A value read out of a `JMap` is a structural subterm, so it is smaller;
this drives the termination of the recursion in
`_enhance_schema_properties`. -/
theorem JMap.sizeOf_get {m : JMap} {k : String} {v : Json}
    (h : m.get k = some v) : sizeOf v < sizeOf m := by
  match m with
  | .nil => simp [JMap.get] at h
  | .cons k2 v2 rest =>
      simp only [JMap.get] at h
      split at h
      · cases h; simp; omega
      · have := JMap.sizeOf_get h; simp; omega

mutual

/-- `_enhance_schema_properties` (`tools.py:263-296`), functionally.  The
source mutates `schema` in place; an update of one top-level key leaves
every other key's value as it was, so each step below reads the keys it
needs from the map as it stands at that point of the source and layers the
updates in source order.  Where the source would index into a nested value
that is not a dict (impossible for the schemas the engine builds), the
embedding leaves the value unchanged. -/
def enhance (s : JMap) : JMap :=
  -- `if "properties" in schema:` enhance every property in place
  let s1 := match h : s.get "properties" with
    | some (.obj props) => s.set "properties" (.obj (enhanceProps props))
    | _ => s
  -- `if schema.get("type") == "array" and "items" in schema:`
  -- ("type", "items", "description" are untouched by the update above)
  let s2 := match s.get "type" with
    | some (.str "array") =>
        (match h2 : s.get "items" with
         | some (.obj items) =>
             let items2 := enhance items
             let s3 := s1.set "items" (.obj items2)
             if s.hasKey "description" then s3
             else s3.set "description"
                    (.str ("Array of " ++ getDescD items2 "items"))
         | _ => s1)
    | _ => s1
  -- `if "enum" in schema and "description" not in schema:`
  let s4 :=
    if s.hasKey "enum" && !(s2.hasKey "description") then
      match s.get "enum" with
      | some (.arr vs) =>
          s2.set "description"
            (.str ("One of: " ++ String.intercalate ", " (vs.toList.map pyStr)))
      | _ => s2
    else s2
  -- `if schema.get("type") == "object" and "description" not in schema
  --     and "title" in schema:`
  match s.get "type" with
  | some (.str "object") =>
      if !(s4.hasKey "description") then
        match s.get "title" with
        | some t => s4.set "description" (.str (pyStr t ++ " object"))
        | none => s4
      else s4
  | _ => s4
termination_by sizeOf s
decreasing_by
  all_goals
    first
    | (have hlt := JMap.sizeOf_get h; simp at hlt ⊢; omega)
    | (have hlt := JMap.sizeOf_get h2; simp at hlt ⊢; omega)

/-- The per-property loop of `_enhance_schema_properties`
(`tools.py:271-278`): recursively enhance each property value, then give it
a `description` built from its `title` when it has none. -/
def enhanceProps : JMap → JMap
  | .nil => .nil
  | .cons k v rest =>
      let v2 := match v with
        | .obj m =>
            let m2 := enhance m
            let m3 :=
              if !(m2.hasKey "description") && m2.hasKey "title" then
                match m2.get "title" with
                | some t => m2.set "description" (.str (pyStr t ++ " value"))
                | none => m2
              else m2
            Json.obj m3
        | other => other
      .cons k v2 (enhanceProps rest)
termination_by m => sizeOf m
decreasing_by
  all_goals (simp; try omega)

end

/-- `_type_to_schema`'s type-description extraction (`tools.py:710-714`):
strip the whole docstring, then take the stripped first line (empty results
are falsy and discarded). -/
def typeDescOf (doc : Option String) : Option String :=
  match doc with
  | none => none
  | some d =>
      let d2 := pyStrip d
      if d2.isEmpty then none
      else
        let line := pyStrip ((pySplit '\n' d2).headD d2)
        if line.isEmpty then none else some line

mutual

/-- `_type_to_schema` (`tools.py:688-819`): convert a type object to a JSON
schema plus a default example.  Pydantic schema generation can raise
(`Ty.raising`), which propagates to the caller's `try/except`; everything
else is a value.  The source's sequential probes (`is`-checks against the
`basic_types` table, the `__members__`/`__enum__` probe, the
`model_json_schema` probe, `get_origin` dispatch, final fallback) become a
match on what each `Ty` constructor satisfies. -/
def tyToSchema : Ty → Except String (JMap × Option Json)
  -- `basic_types` table (`tools.py:691-699`), hit via `type_hint is None`
  -- or `type_hint in basic_types`
  | .str => .ok (JMap.ofList [("type", .str "string"),
                              ("description", .str "Text string")],
                 some (.str "example_string"))
  | .int => .ok (JMap.ofList [("type", .str "integer"),
                              ("description", .str "Integer number")],
                 some (.int 0))
  | .float => .ok (JMap.ofList [("type", .str "number"),
                                ("description", .str "Floating-point number")],
                   some (.num 0))
  | .bool => .ok (JMap.ofList [("type", .str "boolean"),
                               ("description", .str "Boolean value")],
                  some (.bool false))
  | .noneT => .ok (JMap.ofList [("type", .str "null"),
                                ("description", .str "No value")],
                   none)
  | .list0 => .ok (JMap.ofList [("type", .str "array"),
                                ("items", .obj .nil),
                                ("description", .str "List of items")],
                   some (.arr .nil))
  | .dict0 => .ok (JMap.ofList [("type", .str "object"),
                                ("description", .str "Dictionary of key-value pairs")],
                   some (.obj .nil))
  -- Enum branch (`tools.py:717-724`): guarded by
  -- `hasattr(type_hint, "__members__") and hasattr(type_hint, "__enum__")`;
  -- the second probe is false for CPython Enum classes (`Ty.hasEnumAttr`),
  -- so an Enum class falls through every later probe to the fallback.
  | .enum nm doc members =>
      if Ty.hasEnumAttr (.enum nm doc members) then
        .ok (JMap.ofList
               [("type", .str "string"),
                ("enum", .arr (JArr.ofList (members.map Json.str))),
                ("description",
                 .str ((typeDescOf doc).getD
                   ("Enumeration with values: " ++ String.intercalate ", " members)))],
             members.head?.map Json.str)
      else .ok (fallbackSchema nm, some (.obj .nil))
  -- Pydantic branch (`tools.py:727-746`): `model_json_schema()`, enhance,
  -- overwrite the description from the class docstring, example from
  -- `model_construct().model_dump()` with exceptions swallowed.
  | .pmodel info _ =>
      let schema := enhance info.jsonSchema
      let schema := match typeDescOf info.doc with
        | some d => schema.set "description" (.str d)
        | none => schema
      .ok (schema, info.constructDump)
  | .raising msg => .error msg
  -- `get_origin` dispatch (`tools.py:749-812`)
  | .union ts =>
      if ts.hasNone then
        match tysOptionalSchema ts with
        | some r => r
        | none => do
            -- `oneOf` over every alternative (`tools.py:766-775`)
            let schemas ← tysToSchemas ts
            .ok (JMap.ofList
                   [("oneOf", .arr (JArr.ofList (schemas.map Json.obj))),
                    ("description", .str "One of multiple possible types")],
                 none)
      else do
        let schemas ← tysToSchemas ts
        .ok (JMap.ofList
               [("oneOf", .arr (JArr.ofList (schemas.map Json.obj))),
                ("description", .str "One of multiple possible types")],
             none)
  | .listOf t => do
      let (isch, iex) ← tyToSchema t
      .ok (JMap.ofList
             [("type", .str "array"),
              ("items", .obj isch),
              ("description", .str ("List of " ++ getDescD isch "items"))],
           some (match iex with
                 | some e => .arr (.cons e .nil)
                 | none => .arr .nil))
  | .dictOf k v => do
      let (_, kex) ← tyToSchema k
      let (vsch, vex) ← tyToSchema v
      .ok (JMap.ofList
             [("type", .str "object"),
              ("additionalProperties", .obj vsch),
              ("description",
               .str ("Dictionary with " ++ k.pyName ++ " keys and "
                     ++ getDescD vsch "values"))],
           some (match kex, vex with
                 | some ke, some ve => .obj (.cons (pyStr ke) ve .nil)
                 | _, _ => .obj .nil))
  -- fallback (`tools.py:814-819`); `datetime` matches no earlier probe
  | .dt => .ok (fallbackSchema "datetime", some (.obj .nil))
  | .unknown nm _ => .ok (fallbackSchema nm, some (.obj .nil))

/-- The `Optional[T]` path of `_type_to_schema` (`tools.py:754-764`):
convert the first non-`None` union argument and widen its `type` to
`[T, "null"]`; `none` when the union has no non-`None` argument. -/
def tysOptionalSchema : Tys → Option (Except String (JMap × Option Json))
  | .nil => none
  | .cons .noneT rest => tysOptionalSchema rest
  | .cons t _ => some (do
      let (base, ex) ← tyToSchema t
      let base2 := match base.get "type" with
        | some (.str ty) =>
            (base.set "type"
              (.arr (.cons (.str ty) (.cons (.str "null") .nil)))).set
              "description" (.str ("Optional " ++ getDescD base "value"))
        | _ => base
      .ok (base2, ex))

/-- Schemas of all union alternatives, in order (examples discarded, as in
the source's loop). -/
def tysToSchemas : Tys → Except String (List JMap)
  | .nil => .ok []
  | .cons t rest => do
      let (s, _) ← tyToSchema t
      let restS ← tysToSchemas rest
      .ok (s :: restS)

end

mutual

/-- `_generate_field_example` (`tools.py:628-686`): a placeholder example
per field type.  `now` is the rendering of `datetime.now().isoformat()`,
passed in as data.  The Enum branch is guarded by the same dead
`__enum__` probe as in `_type_to_schema`; a Pydantic model whose
introspection raises hits the branch's `except` and yields `{}`. -/
def genFieldExample (now : String) : Ty → Json
  | .str => .str "example_string"
  | .int => .int 42
  | .float => .num (157 / 50 : ℚ)
  | .bool => .bool true
  | .list0 => .arr .nil
  | .dict0 => .obj .nil
  | .dt => .str now
  | .union ts =>
      if ts.hasNone then
        match genFirstNonNone now ts with
        | some v => v
        | none => .null
      else .null
  | .listOf t => .arr (.cons (genFieldExample now t) .nil)
  | .enum nm doc members =>
      if Ty.hasEnumAttr (.enum nm doc members) then
        match members.head? with
        | some m => .str m
        | none => .null
      else .null
  | .pmodel _ fields => .obj (genFields now fields)
  | .raising _ => .obj .nil
  | .noneT => .null
  | .dictOf _ _ => .null
  | .unknown _ _ => .null

/-- `gen(non_none_args[0])` of the `Optional` path in
`_generate_field_example` (`tools.py:648-654`). -/
def genFirstNonNone (now : String) : Tys → Option Json
  | .nil => none
  | .cons .noneT rest => genFirstNonNone now rest
  | .cons t _ => some (genFieldExample now t)

/-- The per-field loop of `_generate_field_example`'s Pydantic branch
(`tools.py:672-680`): each annotated field gets a recursively generated
placeholder; a field without an `annotation` attribute is skipped. -/
def genFields (now : String) : Fields → JMap
  | .nil => .nil
  | .cons n ann _ rest =>
      match ann with
      | some a => .cons n (genFieldExample now a) (genFields now rest)
      | none => genFields now rest

end

/-- The explicit `json_schema_extra` examples of a field list, in order —
the collection loops at `tools.py:190-201`, `tools.py:344-350` and the
example half of `_create_example_from_model`'s strategy 2. -/
def explicitFieldExamples : Fields → JMap
  | .nil => .nil
  | .cons n _ fe rest =>
      match fe with
      | some e => .cons n e (explicitFieldExamples rest)
      | none => explicitFieldExamples rest

/-- Strategy 2 of `_create_example_from_model` (`tools.py:575-595`): per
field, the explicit `json_schema_extra` example when present, else a
generated placeholder for its annotation; fields with neither are
skipped. -/
def strategy2Examples (now : String) : Fields → JMap
  | .nil => .nil
  | .cons n ann fe rest =>
      match fe with
      | some e => .cons n e (strategy2Examples now rest)
      | none =>
          match ann with
          | some a => .cons n (genFieldExample now a) (strategy2Examples now rest)
          | none => strategy2Examples now rest

/-- `_create_example_from_model` (`tools.py:565-626`), strategy order:
`Config.schema_extra["example"]`; field examples/placeholders assembled
through `model_construct(**).model_dump()` (modelled as the literal object,
construction succeeding); a parseable `Example:` docstring block
(pre-parsed into `MInfo.docExample`); `model_type().model_dump()`
(`MInfo.defaultDump`, `none` when construction raises); else no example. -/
def createExampleFromModel (now : String) (info : MInfo) (fields : Fields) :
    Option Json :=
  match info.configExample with
  | some e => some e
  | none =>
      match strategy2Examples now fields with
      | JMap.cons k v rest => some (.obj (JMap.cons k v rest))
      | .nil =>
          match info.docExample with
          | some e => some e
          | none => info.defaultDump

/-!  ## Handlers, parameters and the three schema extractors  -/

/-- The location-marker kinds `fastapi.Path/Query/Header/Cookie/Body`. -/
inductive MKind where
  | path | query | header | cookie | body
deriving DecidableEq

/-- A parameter's default slot: absent (`inspect.Parameter.empty`), a plain
Python value, or a FastAPI marker object (`Query(...)`, `Path(...)`,
`Body(...)`, ...).  Marker objects always expose `default` (none models
`...`, i.e. required), `description` and `example` attributes; plain values
expose none of the three. -/
inductive PDefault where
  | empty : PDefault
  | plain (v : Json) : PDefault
  | marker (kind : MKind) (dflt : Option Json) (description : Option String)
      (exv : Option Json) : PDefault

/-- `inspect.Parameter.kind` as far as the engine tests it
(`VAR_POSITIONAL` / `VAR_KEYWORD` / everything else). -/
inductive PKind where
  | normal | varPositional | varKeyword
deriving DecidableEq

/-- One entry of `inspect.signature(func).parameters`. -/
structure Param where
  name : String
  kind : PKind
  ann : Option Ty
  dflt : PDefault

/-- A parameter "declares no default value" in the sense of the required
test at `tools.py:412`: an empty default slot, or a marker object whose
`default` attribute is `...`. -/
def declaresNoDefault (p : Param) : Bool :=
  match p.dflt with
  | .empty => true
  | .marker _ none _ _ => true
  | _ => false

/-- A parameter that the per-parameter loop processes (not a
`self`/`cls`/`request` special and not var-args). -/
def includedParam (p : Param) : Bool :=
  !(p.name == "self" || p.name == "cls" || p.name == "request"
    || p.kind != PKind.normal)

/-- The base function of a handler's wrapper chain, as introspected by the
extractors after the `while hasattr(current_func, "__wrapped__")`
unwrapping: its `__name__`, its signature's parameters and return
annotation (none = no annotation, `some .noneT` = `-> None`), the response
model found by `_extract_response_model`'s attribute/closure/route-table
searches (`tools.py:522-563`, abstracted to the declared response model,
`none` when every strategy fails), and its cleaned docstring
(`inspect.getdoc`). -/
structure BaseFunc where
  name : String
  params : List Param
  returnType : Option Ty
  responseModel : Option Ty
  doc : Option String

/-- The first-pass parameter loops looking for a Pydantic model annotation
(`tools.py:322-358`, `tools.py:219-250`): skip `self`/`cls`/`request`
(and var-args when `skipVar`, which the body extractor's second loop does
not test), return the first annotation with a `model_json_schema`
attribute. -/
def findModelParam (skipVar : Bool) : List Param → Option Ty
  | [] => none
  | p :: rest =>
      if p.name == "self" || p.name == "cls" || p.name == "request"
         || (skipVar && p.kind != PKind.normal) then
        findModelParam skipVar rest
      else match p.ann with
        | some a => if a.hasMJS then some a else findModelParam skipVar rest
        | none => findModelParam skipVar rest

/-- Path-parameter names from the route template (`tools.py:307-311`):
the `{name}` segments of the path split on `/`. -/
def templateParams (path : String) : List String :=
  ((pySplit '/' path).filter
    (fun s => pyStartsWith s "\x7b" && pyEndsWith s "\x7d")).map
    (fun s => (s.drop 1).dropRight 1)

/-- `prop_schema["in"] = "query"` over all properties (`tools.py:352-355`);
a non-dict property value (which would make the source raise, and which the
engine never produces) is left unchanged. -/
def tagQuery : JMap → JMap
  | .nil => .nil
  | .cons k v rest =>
      let v2 := match v with
        | .obj m => Json.obj (m.set "in" (.str "query"))
        | o => o
      .cons k v2 (tagQuery rest)

/-- The Pydantic-model branch of `_extract_param_schema`
(`tools.py:331-358`): the model's enhanced schema, the full stripped class
docstring as description, every property tagged `"in": "query"`, and the
explicit field examples as the example object. -/
def modelParamSchema (info : MInfo) (fields : Fields) : JMap × Option Json :=
  let msch := enhance info.jsonSchema
  let msch := match info.doc with
    | some d =>
        if (pyStrip d).isEmpty then msch
        else msch.set "description" (.str (pyStrip d))
    | none => msch
  let msch := match msch.get "properties" with
    | some (.obj props) => msch.set "properties" (.obj (tagQuery props))
    | _ => msch
  (msch, some (.obj (explicitFieldExamples fields)))

/-- One iteration of `_extract_param_schema`'s per-parameter loop
(`tools.py:369-413`) on a processed parameter, updating the `properties`
map, the `required` list and the example object. -/
def processOneParam (pathParams : List String) (p : Param)
    (props : JMap) (req : List String) (ex : JMap) :
    Except String (JMap × List String × JMap) :=
  -- location: "query" by default, "path" when named in the template,
  -- overridden by an explicit marker object (`tools.py:369-383`)
  let base := if p.name ∈ pathParams then "path" else "query"
  let paramIn := match p.dflt with
    | .marker .path _ _ _ => "path"
    | .marker .query _ _ _ => "query"
    | .marker .header _ _ _ => "header"
    | .marker .cookie _ _ _ => "cookie"
    | _ => base
  -- `param_schema = {"type": "string"}` default, else converted from the
  -- annotation (`tools.py:385-390`); a conversion exception propagates to
  -- the extractor's `try/except`
  match (match p.ann with
    | some a => tyToSchema a
    | none => .ok (JMap.ofList [("type", Json.str "string")],
                   (none : Option Json)) :
      Except String (JMap × Option Json)) with
  | .error e => .error e
  | .ok r =>
    -- description/example/default read off a marker object
    -- (`tools.py:392-402`); plain values have no such attributes
    let pr := match p.dflt with
      | .marker _ d desc mex =>
          let psch := r.1.set "description"
            (match desc with | some s => Json.str s | none => Json.null)
          let psch := match d with
            | some dv => psch.set "default" dv
            | none => psch
          (psch, mex)
      | _ => r
    .ok (props.set p.name (Json.obj (pr.1.set "in" (.str paramIn))),
         (match p.dflt with
          | .empty => req ++ [p.name]
          | .marker _ none _ _ => req ++ [p.name]
          | _ => req),
         (match pr.2 with
          | some v => ex.set p.name v
          | none => ex))

/-- The per-parameter loop of `_extract_param_schema`
(`tools.py:361-413`), accumulating the `properties` map, the `required`
list and the example object in source order. -/
def processParams (pathParams : List String) :
    List Param → JMap → List String → JMap →
    Except String (JMap × List String × JMap)
  | [], props, req, ex => .ok (props, req, ex)
  | p :: rest, props, req, ex =>
      if p.name == "self" || p.name == "cls" || p.name == "request"
         || p.kind != PKind.normal then
        processParams pathParams rest props req ex
      else
        match processOneParam pathParams p props req ex with
        | .error e => .error e
        | .ok (props2, req2, ex2) =>
            processParams pathParams rest props2 req2 ex2

/-- `_extract_param_schema` (`tools.py:298-421`), fallible core: the
Pydantic-model branch, or the per-parameter assembly into
`{"type": "object", "properties": ..., "required": [...]}`. -/
def extractParamSchemaCore (h : BaseFunc) (routePath : String) :
    Except String (JMap × Option Json) :=
  let pathParams := templateParams routePath
  match findModelParam true h.params with
  | some (.raising msg) => .error msg
  | some (.pmodel info fields) => .ok (modelParamSchema info fields)
  | _ => do
      let (props, req, ex) ← processParams pathParams h.params .nil [] .nil
      .ok (JMap.ofList
             [("type", .str "object"),
              ("properties", .obj props),
              ("required", .arr (JArr.ofList (req.map Json.str)))],
           some (.obj ex))

/-- `_extract_param_schema` with its `try/except` (`tools.py:417-421`):
any internal exception degrades to a generic parameters object. -/
def extractParamSchema (h : BaseFunc) (routePath : String) :
    JMap × Option Json :=
  match extractParamSchemaCore h routePath with
  | .ok r => r
  | .error _ =>
      (JMap.ofList [("type", .str "object"),
                    ("description", .str "Request parameters")], none)

/-- The body-marker loop of `_extract_body_schema` (`tools.py:162-174`):
the first non-special, non-varargs parameter whose default is a `Body`
marker object (the source's `isinstance(param.default, Body.__class__)`
probe, modelled as the marker-kind test). -/
def findBodyParam : List Param → Option Param
  | [] => none
  | p :: rest =>
      if p.name == "self" || p.name == "cls" || p.name == "request"
         || p.kind != PKind.normal then findBodyParam rest
      else match p.dflt with
        | .marker .body _ _ _ => some p
        | _ => findBodyParam rest

/-- The model branch shared by both loops of `_extract_body_schema`
(`tools.py:176-203`, `tools.py:223-250`): enhanced model schema, full
stripped class docstring as description, explicit field examples. -/
def bodyModelSchema (info : MInfo) (fields : Fields) : JMap × Option Json :=
  let msch := enhance info.jsonSchema
  let msch := match info.doc with
    | some d =>
        if (pyStrip d).isEmpty then msch
        else msch.set "description" (.str (pyStrip d))
    | none => msch
  (msch, some (.obj (explicitFieldExamples fields)))

/-- `_extract_body_schema` (`tools.py:139-261`), fallible core.  (The
docstring write at `tools.py:156-159` lands on the initial schema dict,
which no return path uses, so it has no observable effect.) -/
def extractBodySchemaCore (h : BaseFunc) : Except String (JMap × Option Json) :=
  match findBodyParam h.params with
  | some p =>
      match p.ann with
      | some (.raising msg) => .error msg
      | some (.pmodel info fields) => .ok (bodyModelSchema info fields)
      | _ =>
          -- simple `Body` parameter or Dict (`tools.py:205-216`); the
          -- marker's `example` replaces `{}` only when truthy
          let ex : Option Json := match p.dflt with
            | .marker _ _ _ (some e) =>
                if pyTruthy e then some e else some (.obj .nil)
            | _ => some (.obj .nil)
          .ok (JMap.ofList
                 [("type", .str "object"),
                  ("additionalProperties", .bool true),
                  ("description", .str ("Request body for " ++ h.name))],
               ex)
  | none =>
      match findModelParam false h.params with
      | some (.raising msg) => .error msg
      | some (.pmodel info fields) => .ok (bodyModelSchema info fields)
      | _ => .ok (JMap.ofList
                    [("type", .str "object"),
                     ("description", .str ("Request body for " ++ h.name)),
                     ("additionalProperties", .bool true)],
                  some (.obj .nil))

/-- `_extract_body_schema` with its `try/except` (`tools.py:259-261`). -/
def extractBodySchema (h : BaseFunc) : JMap × Option Json :=
  match extractBodySchemaCore h with
  | .ok r => r
  | .error _ =>
      (JMap.ofList [("type", .str "object"),
                    ("description", .str "Request body")], none)

/-- `_extract_output_schema` (`tools.py:423-520`), fallible core.  `now`
is the `datetime.now().isoformat()` rendering used by example synthesis. -/
def extractOutputSchemaCore (now : String) (h : BaseFunc) :
    Except String (JMap × Option Json) :=
  let docDesc := firstLineDesc h.doc
  -- `response_model` first, else the return annotation (`tools.py:446-451`)
  let mt : Option Ty := match h.responseModel with
    | some m => some m
    | none => h.returnType
  match mt with
  | none =>
      -- no type information at all (`tools.py:452-456`)
      .ok (JMap.ofList
             [("type", .str "object"),
              ("description", .str (docDesc.getD "Response object"))],
           none)
  | some modelType =>
      match modelType with
      -- `model_type is dict or ... or get_origin(model_type) is dict`
      -- with two type arguments (`tools.py:459-479`)
      | .dictOf k v => do
          let (_, kex) ← tyToSchema k
          let (vsch, vex) ← tyToSchema v
          .ok (JMap.ofList
                 [("type", .str "object"),
                  ("additionalProperties", .obj vsch),
                  ("description",
                   .str (docDesc.getD
                     ("Dictionary with " ++ k.pyName ++ " keys and "
                      ++ getDescD vsch "values")))],
               some (match kex, vex with
                     | some ke, some ve => .obj (.cons (pyStr ke) ve .nil)
                     | _, _ => .obj .nil))
      -- plain `dict`/`Dict` (`tools.py:480-486`)
      | .dict0 =>
          .ok (JMap.ofList
                 [("type", .str "object"),
                  ("description", .str (docDesc.getD "Dictionary response")),
                  ("additionalProperties", .bool true)],
               some (.obj (.cons "example_key" (.str "example_value") .nil)))
      -- Pydantic models (`tools.py:489-505`)
      | .pmodel info fields =>
          let schema := enhance info.jsonSchema
          let schema :=
            if schema.hasKey "description" then schema
            else match docDesc with
              | some d => schema.set "description" (.str d)
              | none =>
                  match schema.get "title" with
                  | some t =>
                      schema.set "description" (.str (pyStr t ++ " response"))
                  | none => schema
          .ok (schema, createExampleFromModel now info fields)
      | .raising msg => .error msg
      -- other return types (`tools.py:507-514`)
      | other => do
          let r ← tyToSchema other
          let schema :=
            if r.1.hasKey "description" then r.1
            else match docDesc with
              | some d => r.1.set "description" (.str d)
              | none => r.1
          .ok (schema, r.2)

/-- `_extract_output_schema` with its `try/except` (`tools.py:516-520`):
any internal exception degrades to a generic response object. -/
def extractOutputSchema (now : String) (h : BaseFunc) : JMap × Option Json :=
  match extractOutputSchemaCore now h with
  | .ok r => r
  | .error _ =>
      (JMap.ofList [("type", .str "object"),
                    ("description", .str "Response data")], none)

/-!  ## The registry and the scanner  -/

/-- The `_tool_info` bundle attached by the `auto_tool` decorator
(`tools.py:880-891`). -/
structure ToolInfo where
  name : String
  description : String
  tags : List String
  exampleInput : Option Json
  exampleOutput : Option Json
deriving DecidableEq

/-- A registered descriptor (`ToolSchema`, `tools.py:10-21`). -/
structure ToolSchema where
  name : String
  description : String
  endpoint : String
  method : String
  input_schema : JMap
  output_schema : JMap
  tags : List String
  example_input : Option Json
  example_output : Option Json
deriving DecidableEq

/-- One entry of `app.routes` as the scanner reads it: the path template,
the declared HTTP methods in iteration order, the `_tool_info` attribute of
each function object along the endpoint's `__wrapped__` chain (outermost
first, base last; this list form presumes the chain ends — `searchSteps`
below models the walk on arbitrary, possibly cyclic, reference graphs),
and the base function's introspection data. -/
structure RouteInfo where
  path : String
  methods : List String
  layerInfos : List (Option ToolInfo)
  base : BaseFunc

/-- The singleton `ToolRegistry`'s mutable state (`tools.py:24-35`): the
bound app (`none` until `set_app` is called) carrying its routes, and the
`tools` dict — an insertion-ordered map from tool name to descriptor. -/
structure RegistryState where
  app : Option (List RouteInfo)
  tools : List (String × ToolSchema)

/-- Python dict assignment `self.tools[name] = tool`: overwrite in place,
else append. -/
def setKey (m : List (String × ToolSchema)) (k : String) (v : ToolSchema) :
    List (String × ToolSchema) :=
  match m with
  | [] => [(k, v)]
  | (k2, v2) :: rest =>
      if k2 = k then (k, v) :: rest else (k2, v2) :: setKey rest k v

/-- Dict read `self.tools.get(name)`. -/
def lookupKey (m : List (String × ToolSchema)) (k : String) :
    Option ToolSchema :=
  match m with
  | [] => none
  | (k2, v2) :: rest => if k2 = k then some v2 else lookupKey rest k

/-- `register_tool` (`tools.py:37-40`). -/
def registerTool (st : RegistryState) (t : ToolSchema) : RegistryState :=
  { st with tools := setKey st.tools t.name t }

/-- `get_all_tools` (`tools.py:42-46`): the dict's values in order. -/
def getAllTools (st : RegistryState) : List ToolSchema := st.tools.map Prod.snd

/-- `set_app` (`tools.py:48-51`). -/
def setApp (st : RegistryState) (routes : List RouteInfo) : RegistryState :=
  { st with app := some routes }

/-- The scanner's wrapper-chain search (`tools.py:79-94`) on a chain that
ends: the first layer carrying `_tool_info`. -/
def firstInfo : List (Option ToolInfo) → Option ToolInfo
  | [] => none
  | some i :: _ => some i
  | none :: rest => firstInfo rest

/-- Python `a or b` over optional JSON values (`tools.py:129-130`): keep
`a` when it is present and truthy, else `b`. -/
def pyOrOpt (a b : Option Json) : Option Json :=
  match a with
  | some j => if pyTruthy j then some j else b
  | none => b

/-- The descriptor built for a discovered tool route (`tools.py:100-131`):
method-dependent input-schema strategy, output schema, and examples that
fall back to the `_tool_info` bundle when the extractor produced nothing
truthy. -/
def mkTool (now : String) (r : RouteInfo) (info : ToolInfo) : ToolSchema :=
  let method := r.methods.headD "GET"
  let inp :=
    if pyUpper method = "POST" ∨ pyUpper method = "PUT"
       ∨ pyUpper method = "PATCH"
    then extractBodySchema r.base
    else extractParamSchema r.base r.path
  let outp := extractOutputSchema now r.base
  { name := info.name
    description := info.description
    endpoint := r.path
    method := method
    input_schema := inp.1
    output_schema := outp.1
    tags := info.tags
    example_input := pyOrOpt inp.2 info.exampleInput
    example_output := pyOrOpt outp.2 info.exampleOutput }

/-- What one loop iteration of `scan_and_register_tools` does with a route
(`tools.py:68-133`): skip reserved `/tools`-prefixed routes other than
`/tools/all`, search the wrapper chain for `_tool_info`, and produce the
named descriptor when found. -/
def routeEntry (now : String) (r : RouteInfo) : Option (String × ToolSchema) :=
  if pyStartsWith r.path "/tools" ∧ r.path ≠ "/tools/all" then none
  else match firstInfo r.layerInfos with
    | some info => some (info.name, mkTool now r info)
    | none => none

/-- The loop body of `scan_and_register_tools` (`tools.py:68-133`) acting
on the tools dict: register the route's descriptor when it is a tool. -/
def scanStep (now : String) (acc : List (String × ToolSchema))
    (r : RouteInfo) : List (String × ToolSchema) :=
  match routeEntry now r with
  | some kv => setKey acc kv.1 kv.2
  | none => acc

/-- The registry contents produced by one scan over a route list, starting
from the cleared dict (`self.tools = {}`, `tools.py:62`). -/
def scanTools (now : String) (routes : List RouteInfo) :
    List (String × ToolSchema) :=
  routes.foldl (scanStep now) []

/-- The descriptor of the most recently discovered route that names tool
`n`, over one scan's enumeration (one fold step). -/
def lastStep (now n : String) (o : Option ToolSchema) (r : RouteInfo) :
    Option ToolSchema :=
  match routeEntry now r with
  | some kv => if kv.1 = n then some kv.2 else o
  | none => o

/-- The descriptor of the last tool route named `n` in enumeration order;
`none` when no route produces that name. -/
def lastNamed (now n : String) (routes : List RouteInfo) : Option ToolSchema :=
  routes.foldl (lastStep now n) none

/-- `scan_and_register_tools` (`tools.py:53-137`): a no-op when no app is
bound (`if not self.app: return`); otherwise clear the tools dict and
repopulate it from the app's routes. -/
def scanAndRegisterTools (now : String) (st : RegistryState) : RegistryState :=
  match st.app with
  | none => st
  | some routes => { app := st.app, tools := scanTools now routes }

/-!  ## The wrapper-chain walk on arbitrary reference graphs

The loop at `tools.py:84-94` follows `__wrapped__` references between
function objects.  To settle whether it terminates on every graph — in
particular on reference cycles of length greater than one — the walk is
modelled over an arbitrary graph on numbered function objects, with
explicit fuel.  -/

/-- The loop of `tools.py:84-94` run for at most `fuel` iterations on a
graph: `w` is the `__wrapped__` reference (`none` when the attribute is
absent), `hasI` the presence of `_tool_info`.  `none` means the loop is
still running after `fuel` iterations; `some b` means it broke, with `b`
the `is_tool` flag. -/
def searchSteps (w : Nat → Option Nat) (hasI : Nat → Bool) :
    Nat → Nat → Option Bool
  | 0, _ => none
  | fuel + 1, cur =>
      if hasI cur then some true
      else match w cur with
        | none => some false
        | some nxt =>
            if nxt = cur then some false else searchSteps w hasI fuel nxt

/-- Termination of the wrapper-chain walk from `start`: the loop breaks
after some finite number of iterations. -/
def SearchTerminates (w : Nat → Option Nat) (hasI : Nat → Bool)
    (start : Nat) : Prop :=
  ∃ fuel r, searchSteps w hasI fuel start = some r

/-- Two function objects that name each other as `__wrapped__`, neither
carrying `_tool_info`: the smallest wrapper-reference cycle of length
greater than one. -/
def twoCycle : Nat → Option Nat :=
  fun n => if n = 0 then some 1 else if n = 1 then some 0 else none

/-- No layer carries `_tool_info`. -/
def noInfo : Nat → Bool := fun _ => false

/-!  ## Concrete instances from `src/main.py`  -/

/-- The `get_document` handler (`main.py:81-89`): `doc_id: str` with no
default, `include_metadata: bool = False` (a plain default, not a marker
object), returning `Dict[str, Any]`, with no `response_model` declared on
the route. -/
def getDocumentBase : BaseFunc :=
  { name := "get_document"
    params :=
      [{ name := "doc_id", kind := .normal, ann := some .str, dflt := .empty },
       { name := "include_metadata", kind := .normal, ann := some .bool,
         dflt := .plain (.bool false) }]
    returnType := some (.dictOf .str (.unknown "Any" none))
    responseModel := none
    doc := some "Retrieve a document by its ID with optional metadata" }

/-- The `_tool_info` bundle of `get_document` (`main.py:81`). -/
def getDocumentInfo : ToolInfo :=
  { name := "get_document", description := "Retrieve a document by ID",
    tags := ["documents"], exampleInput := none, exampleOutput := none }

/-- The `get_document` route as the scanner sees it. -/
def getDocumentRoute : RouteInfo :=
  { path := "/document/\x7bdoc_id\x7d"
    methods := ["GET"]
    layerInfos := [some getDocumentInfo]
    base := getDocumentBase }

/-- A handler with no return annotation, no response model and no
docstring (the spec's Scenario D). -/
def scenarioDBase : BaseFunc :=
  { name := "handler_d", params := [], returnType := none,
    responseModel := none, doc := none }

/-- A handler whose return annotation is a Pydantic model whose schema
generation raises. -/
def raisingBase : BaseFunc :=
  { name := "handler_raising", params := [],
    returnType := some (.raising "schema generation failed"),
    responseModel := none, doc := none }

/-- The `internal_stats` route (`main.py:92-95`): a handler carrying no
capability metadata anywhere on its chain. -/
def internalStatsRoute : RouteInfo :=
  { path := "/internal/stats"
    methods := ["GET"]
    layerInfos := [none]
    base := { name := "internal_stats", params := [], returnType := none,
              responseModel := none,
              doc := some "Internal endpoint that isn't exposed as a tool" } }

/-- A leftover descriptor from some earlier scan, used to exercise the
clear-on-scan behaviour. -/
def staleTool : ToolSchema :=
  { name := "stale", description := "left over", endpoint := "/stale",
    method := "GET", input_schema := .nil, output_schema := .nil,
    tags := [], example_input := none, example_output := none }

/-- Two capability routes declaring the same tool name `dup`. -/
def dupInfoA : ToolInfo :=
  { name := "dup", description := "first", tags := [],
    exampleInput := none, exampleOutput := none }

def dupInfoB : ToolInfo :=
  { name := "dup", description := "second", tags := [],
    exampleInput := none, exampleOutput := none }

def dupRouteA : RouteInfo :=
  { path := "/a", methods := ["GET"], layerInfos := [some dupInfoA],
    base := scenarioDBase }

def dupRouteB : RouteInfo :=
  { path := "/b", methods := ["GET"], layerInfos := [some dupInfoB],
    base := scenarioDBase }

/-!  ## Theorems  -/

/-- **C6.** For every scalar type in {string, integer, number, boolean,
null}, `_type_to_schema` returns a schema whose declared `type` equals the
corresponding scalar kind, together with the default example of that same
kind: string → placeholder text, integer → 0, number → 0.0,
boolean → false, null → no example. -/
theorem c6_scalar_conversion :
    tyToSchema .str
      = .ok (JMap.ofList [("type", .str "string"),
                          ("description", .str "Text string")],
             some (.str "example_string"))
  ∧ tyToSchema .int
      = .ok (JMap.ofList [("type", .str "integer"),
                          ("description", .str "Integer number")],
             some (.int 0))
  ∧ tyToSchema .float
      = .ok (JMap.ofList [("type", .str "number"),
                          ("description", .str "Floating-point number")],
             some (.num 0))
  ∧ tyToSchema .bool
      = .ok (JMap.ofList [("type", .str "boolean"),
                          ("description", .str "Boolean value")],
             some (.bool false))
  ∧ tyToSchema .noneT
      = .ok (JMap.ofList [("type", .str "null"),
                          ("description", .str "No value")],
             none) :=
  ⟨rfl, rfl, rfl, rfl, rfl⟩

/-- **C8.** The claim says an enumerated type converts to an Enum schema
listing the declared member names with the first member as example.  The
code's guard `hasattr(type_hint, "__members__") and
hasattr(type_hint, "__enum__")` can never hold — CPython `Enum` classes
have no `__enum__` attribute — so the Enum branch of `_type_to_schema` is
unreachable and an Enum class falls through to the generic fallback object
schema, with no `enum` key and an empty-object example instead of the
first member. -/
theorem c8_enum_branch_unreachable :
    tyToSchema (.enum "Color" none ["RED", "GREEN"])
      = .ok (JMap.ofList
               [("type", .str "object"),
                ("description", .str "Object of type Color")],
             some (.obj .nil))
  ∧ (JMap.ofList
       [("type", .str "object"),
        ("description", .str "Object of type Color")]).hasKey "enum" = false
  ∧ Ty.hasEnumAttr (.enum "Color" none ["RED", "GREEN"]) = false :=
  ⟨rfl, rfl, rfl⟩

/-- **C7 (counterexample).** The claim says the field-wise example
synthesizer maps an integer field to the placeholder `0`; the code
(`tools.py:633-634`) returns `42`. -/
theorem c7_integer_placeholder_counterexample :
    genFieldExample "2023-01-01T00:00:00" Ty.int ≠ Json.int 0
  ∧ genFieldExample "2023-01-01T00:00:00" Ty.int = Json.int 42 :=
  ⟨by decide, rfl⟩

/-- **C7 (amended).** The field-wise placeholders of
`_generate_field_example` are determined by the scalar kind as:
string → the literal placeholder text, integer → 42, number → 3.14,
boolean → true, timestamp → the current time; a bare list field becomes an
empty list, a typed array field a single-item list of a recursively
synthesized element, and a structured-type field a recursively
synthesized instance. -/
theorem c7_field_placeholders (now : String) (t : Ty) (info : MInfo)
    (fs : Fields) :
    genFieldExample now .str = .str "example_string"
  ∧ genFieldExample now .int = .int 42
  ∧ genFieldExample now .float = .num (157 / 50 : ℚ)
  ∧ genFieldExample now .bool = .bool true
  ∧ genFieldExample now .dt = .str now
  ∧ genFieldExample now .list0 = .arr .nil
  ∧ genFieldExample now (.listOf t) = .arr (.cons (genFieldExample now t) .nil)
  ∧ genFieldExample now (.pmodel info fs) = .obj (genFields now fs) :=
  ⟨rfl, rfl, rfl, rfl, rfl, rfl, rfl, rfl⟩

/-- **C3.** When the registry has never been bound to a route source
(`set_app` never called, so `self.app` is unset), `scan_and_register_tools`
returns without doing anything: the whole registry state — in particular
the stored descriptors — is exactly what it was before the call. -/
theorem c3_unbound_scan_noop (now : String) (st : RegistryState)
    (h : st.app = none) :
    scanAndRegisterTools now st = st
  ∧ getAllTools (scanAndRegisterTools now st) = getAllTools st := by
  have : scanAndRegisterTools now st = st := by
    unfold scanAndRegisterTools
    rw [h]
  exact ⟨this, by rw [this]⟩

/-- Witness for `c3_unbound_scan_noop` at a concrete unbound registry
holding a leftover descriptor. -/
theorem c3_unbound_scan_noop_witness :
    scanAndRegisterTools "2023-01-01T00:00:00"
        { app := none, tools := [("stale", staleTool)] }
      = { app := none, tools := [("stale", staleTool)] } :=
  (c3_unbound_scan_noop "2023-01-01T00:00:00"
    { app := none, tools := [("stale", staleTool)] } rfl).1

/-- **C2.** Output-schema extraction always yields a schema: when the
handler has neither a return annotation nor a response model it returns the
generic object schema (described by the docstring's first line, else
`"Response object"`), and when the fallible derivation core raises, the
`try/except` wrapper returns the generic `"Response data"` object schema
instead of propagating the exception.  (Totality — the extraction never
leaves the schema absent — is carried by the return type of
`extractOutputSchema` itself.) -/
theorem c2_output_schema_total (now : String) (h : BaseFunc) :
    (h.responseModel = none → h.returnType = none →
      extractOutputSchema now h
        = (JMap.ofList
             [("type", .str "object"),
              ("description",
               .str ((firstLineDesc h.doc).getD "Response object"))],
           none))
  ∧ (∀ e, extractOutputSchemaCore now h = .error e →
      extractOutputSchema now h
        = (JMap.ofList
             [("type", .str "object"),
              ("description", .str "Response data")],
           none)) := by
  constructor
  · intro h1 h2
    unfold extractOutputSchema extractOutputSchemaCore
    rw [h1, h2]
  · intro e he
    unfold extractOutputSchema
    rw [he]

/-- Witness for `c2_output_schema_total`: a handler with no type
information and no docstring (Scenario D) yields the generic response
object, and a handler whose response-type schema generation raises yields
the generic degraded schema. -/
theorem c2_output_schema_total_witness :
    extractOutputSchema "2023-01-01T00:00:00" scenarioDBase
      = (JMap.ofList [("type", .str "object"),
                      ("description", .str "Response object")], none)
  ∧ extractOutputSchema "2023-01-01T00:00:00" raisingBase
      = (JMap.ofList [("type", .str "object"),
                      ("description", .str "Response data")], none) :=
  ⟨(c2_output_schema_total "2023-01-01T00:00:00" scenarioDBase).1 rfl rfl,
   (c2_output_schema_total "2023-01-01T00:00:00" raisingBase).2
     "schema generation failed" rfl⟩

/-- On the metadata-free two-cycle the loop never breaks, whatever the
fuel: each iteration moves to the other node of the cycle and the guard
`next_func is current_func` never fires. -/
theorem searchSteps_twoCycle_stuck (fuel : Nat) :
    searchSteps twoCycle noInfo fuel 0 = none
  ∧ searchSteps twoCycle noInfo fuel 1 = none := by
  induction fuel with
  | zero => exact ⟨rfl, rfl⟩
  | succ n ih =>
      constructor
      · simp [searchSteps, twoCycle, noInfo, ih.2]
      · simp [searchSteps, twoCycle, noInfo, ih.1]

/-- **C4 (counterexample).** The claim says the wrapper-chain search
terminates on every chain, including reference cycles of length greater
than one, thanks to a hop bound or a repeated-reference guard.  The loop
at `tools.py:84-94` has neither — its only cycle guard is
`next_func is current_func` — so on two metadata-free wrappers that name
each other as `__wrapped__` it never breaks. -/
theorem c4_cycle_counterexample : ¬ SearchTerminates twoCycle noInfo 0 := by
  rintro ⟨fuel, r, hr⟩
  rw [(searchSteps_twoCycle_stuck fuel).1] at hr
  exact Option.noConfusion hr

/-- **C4 (amended).** The wrapper-chain search stops at the first layer
carrying capability metadata, at a layer with no wrapped reference, and at
a self-referencing layer; consequently it terminates on every chain along
which each wrapper references a strictly earlier function object (the
shape produced by decorator stacking).  It has no hop bound and no
general repeated-reference guard, so a metadata-free reference cycle of
length greater than one is followed forever. -/
theorem c4_search_termination (w : Nat → Option Nat) (hasI : Nat → Bool)
    (start : Nat) :
    (hasI start = true → SearchTerminates w hasI start)
  ∧ (w start = none → SearchTerminates w hasI start)
  ∧ (w start = some start → SearchTerminates w hasI start)
  ∧ ((∀ x y, w x = some y → y < x) → SearchTerminates w hasI start) := by
  refine ⟨?_, ?_, ?_, ?_⟩
  · intro hI
    exact ⟨1, true, by simp [searchSteps, hI]⟩
  · intro hw
    by_cases hI : hasI start = true
    · exact ⟨1, true, by simp [searchSteps, hI]⟩
    · exact ⟨1, false, by simp [searchSteps, hI, hw]⟩
  · intro hw
    by_cases hI : hasI start = true
    · exact ⟨1, true, by simp [searchSteps, hI]⟩
    · exact ⟨1, false, by simp [searchSteps, hI, hw]⟩
  · intro hw
    induction start using Nat.strong_induction_on with
    | _ start ih =>
        by_cases hI : hasI start = true
        · exact ⟨1, true, by simp [searchSteps, hI]⟩
        · cases hwc : w start with
          | none => exact ⟨1, false, by simp [searchSteps, hI, hwc]⟩
          | some nxt =>
              by_cases hn : nxt = start
              · exact ⟨1, false, by simp [searchSteps, hI, hwc, hn]⟩
              · obtain ⟨fuel, r, hr⟩ := ih nxt (hw _ _ hwc)
                exact ⟨fuel + 1, r, by
                  simp only [searchSteps, hI, hwc, hn, if_false]
                  simpa [hI, hn] using hr⟩

/-- Witness for `c4_search_termination`: each stop condition discharged at
a concrete chain — metadata on the first layer, a chain end, a self-loop,
and a strictly decreasing chain. -/
theorem c4_search_termination_witness :
    SearchTerminates (fun _ => none) (fun _ => true) 3
  ∧ SearchTerminates (fun _ => none) noInfo 4
  ∧ SearchTerminates (fun n => some n) noInfo 5
  ∧ SearchTerminates (fun n => if n = 0 then none else some (n - 1))
      noInfo 6 := by
  refine ⟨(c4_search_termination _ _ 3).1 rfl,
          (c4_search_termination _ _ 4).2.1 rfl,
          (c4_search_termination _ _ 5).2.2.1 rfl,
          (c4_search_termination _ _ 6).2.2.2 ?_⟩
  intro x y hxy
  by_cases hx : x = 0
  · simp [hx] at hxy
  · simp [hx] at hxy
    omega

/-!  Dict lemmas for the scan fold.  -/

theorem mem_setKey {m : List (String × ToolSchema)} {k : String}
    {v : ToolSchema} {p : String × ToolSchema}
    (h : p ∈ setKey m k v) : p ∈ m ∨ p = (k, v) := by
  induction m with
  | nil =>
      simp only [setKey, List.mem_singleton] at h
      exact Or.inr h
  | cons q rest ih =>
      obtain ⟨k2, v2⟩ := q
      by_cases hk : k2 = k
      · simp only [setKey, if_pos hk, List.mem_cons] at h
        rcases h with h | h
        · exact Or.inr h
        · exact Or.inl (List.mem_cons_of_mem _ h)
      · simp only [setKey, if_neg hk, List.mem_cons] at h
        rcases h with h | h
        · exact Or.inl (List.mem_cons.mpr (Or.inl h))
        · rcases ih h with h2 | h2
          · exact Or.inl (List.mem_cons_of_mem _ h2)
          · exact Or.inr h2

theorem lookupKey_setKey_self (m : List (String × ToolSchema)) (k : String)
    (v : ToolSchema) : lookupKey (setKey m k v) k = some v := by
  induction m with
  | nil => simp [setKey, lookupKey]
  | cons q rest ih =>
      obtain ⟨k2, v2⟩ := q
      by_cases hk : k2 = k
      · simp [setKey, lookupKey, hk]
      · simp [setKey, lookupKey, hk, ih]

theorem lookupKey_setKey_ne (m : List (String × ToolSchema))
    {k k2 : String} (v : ToolSchema) (h : k2 ≠ k) :
    lookupKey (setKey m k v) k2 = lookupKey m k2 := by
  have hne : ¬(k = k2) := fun hh => h hh.symm
  induction m with
  | nil => simp [setKey, lookupKey, hne]
  | cons q rest ih =>
      obtain ⟨k3, v3⟩ := q
      by_cases hk : k3 = k
      · subst hk
        simp [setKey, lookupKey, hne]
      · simp only [setKey, if_neg hk, lookupKey]
        split
        · rfl
        · exact ih

theorem mem_keys_setKey {m : List (String × ToolSchema)} {k x : String}
    {v : ToolSchema} (h : x ∈ (setKey m k v).map Prod.fst) :
    x ∈ m.map Prod.fst ∨ x = k := by
  simp only [List.mem_map] at h ⊢
  obtain ⟨p, hp, rfl⟩ := h
  rcases mem_setKey hp with h2 | h2
  · exact Or.inl ⟨p, h2, rfl⟩
  · subst h2
    exact Or.inr rfl

theorem keys_nodup_setKey {m : List (String × ToolSchema)} {k : String}
    {v : ToolSchema} (h : (m.map Prod.fst).Nodup) :
    ((setKey m k v).map Prod.fst).Nodup := by
  induction m with
  | nil => simp [setKey]
  | cons q rest ih =>
      obtain ⟨k2, v2⟩ := q
      simp only [List.map_cons, List.nodup_cons] at h
      by_cases hk : k2 = k
      · subst hk
        simpa [setKey, List.nodup_cons] using h
      · simp only [setKey, if_neg hk, List.map_cons, List.nodup_cons]
        refine ⟨fun hmem => ?_, ih h.2⟩
        rcases mem_keys_setKey hmem with h2 | h2
        · exact h.1 h2
        · exact hk h2

/-- Everything registered by the scan fold comes either from the starting
dict or from some route's produced entry. -/
theorem mem_scanFold {now : String} {routes : List RouteInfo}
    {acc : List (String × ToolSchema)} {p : String × ToolSchema}
    (h : p ∈ routes.foldl (scanStep now) acc) :
    p ∈ acc ∨ ∃ r ∈ routes, routeEntry now r = some p := by
  induction routes generalizing acc with
  | nil => exact Or.inl h
  | cons r rs ih =>
      rcases ih h with hacc | ⟨r2, hr2, he⟩
      · unfold scanStep at hacc
        cases hre : routeEntry now r with
        | none =>
            rw [hre] at hacc
            exact Or.inl hacc
        | some kv =>
            rw [hre] at hacc
            rcases mem_setKey hacc with h2 | h2
            · exact Or.inl h2
            · exact Or.inr ⟨r, List.mem_cons_self _ _, by rw [hre, h2]⟩
      · exact Or.inr ⟨r2, List.mem_cons_of_mem _ hr2, he⟩

/-- Looking a name up after the scan fold is the same as folding the
last-entry-named-`n` accumulator. -/
theorem lookupKey_scanFold (now n : String) (routes : List RouteInfo)
    (acc : List (String × ToolSchema)) :
    lookupKey (routes.foldl (scanStep now) acc) n
      = routes.foldl (lastStep now n) (lookupKey acc n) := by
  induction routes generalizing acc with
  | nil => rfl
  | cons r rs ih =>
      simp only [List.foldl_cons]
      rw [ih]
      congr 1
      unfold scanStep lastStep
      cases hre : routeEntry now r with
      | none => rfl
      | some kv =>
          show lookupKey (setKey acc kv.1 kv.2) n
              = if kv.1 = n then some kv.2 else lookupKey acc n
          by_cases hk : kv.1 = n
          · rw [hk, if_pos rfl, lookupKey_setKey_self]
          · rw [if_neg hk, lookupKey_setKey_ne _ _ (fun hh => hk hh.symm)]

/-- The registry a scan produces maps a name to the descriptor of the most
recently discovered route producing that name. -/
theorem lookupKey_scanTools (now n : String) (routes : List RouteInfo) :
    lookupKey (scanTools now routes) n = lastNamed now n routes := by
  unfold scanTools lastNamed
  simpa [lookupKey] using lookupKey_scanFold now n routes []

theorem keys_nodup_scanFold (now : String) (routes : List RouteInfo)
    (acc : List (String × ToolSchema))
    (h : (acc.map Prod.fst).Nodup) :
    ((routes.foldl (scanStep now) acc).map Prod.fst).Nodup := by
  induction routes generalizing acc with
  | nil => exact h
  | cons r rs ih =>
      simp only [List.foldl_cons]
      apply ih
      unfold scanStep
      cases routeEntry now r with
      | none => exact h
      | some kv => exact keys_nodup_setKey h

theorem lastFold_isSome_mono (now n : String) (rs : List RouteInfo)
    (o : Option ToolSchema) (h : o.isSome) :
    (rs.foldl (lastStep now n) o).isSome := by
  induction rs generalizing o with
  | nil => exact h
  | cons r rs2 ih =>
      simp only [List.foldl_cons]
      apply ih
      unfold lastStep
      cases routeEntry now r with
      | none => exact h
      | some kv =>
          by_cases hk : kv.1 = n
          · simp [hk]
          · simpa [hk] using h

/-- When some route in the list produces an entry named `n`, the
last-named fold ends on a present value wherever it starts. -/
theorem lastFold_isSome {now n : String} {rs : List RouteInfo}
    {r : RouteInfo} {v : ToolSchema} (hmem : r ∈ rs)
    (he : routeEntry now r = some (n, v)) (o : Option ToolSchema) :
    (rs.foldl (lastStep now n) o).isSome := by
  induction rs generalizing o with
  | nil => cases hmem
  | cons r2 rs2 ih =>
      simp only [List.foldl_cons]
      rcases List.mem_cons.mp hmem with rfl | hmem2
      · apply lastFold_isSome_mono
        unfold lastStep
        rw [he]
        simp
      · exact ih hmem2 _

/-- A produced route entry decomposes into the skip condition and the
chain metadata. -/
theorem routeEntry_some_elim {now : String} {r : RouteInfo}
    {p : String × ToolSchema} (h : routeEntry now r = some p) :
    ¬(pyStartsWith r.path "/tools" = true ∧ r.path ≠ "/tools/all")
    ∧ ∃ info, firstInfo r.layerInfos = some info
        ∧ p = (info.name, mkTool now r info) := by
  unfold routeEntry at h
  split at h
  · exact absurd h (by simp)
  · next hcond =>
      cases hfi : firstInfo r.layerInfos with
      | none =>
          rw [hfi] at h
          cases h
      | some info =>
          rw [hfi] at h
          cases h
          exact ⟨hcond, info, rfl, rfl⟩

/-- Conversely, a non-reserved route whose chain carries metadata produces
exactly its named descriptor. -/
theorem routeEntry_of_info {now : String} {r : RouteInfo} {info : ToolInfo}
    (hskip : ¬(pyStartsWith r.path "/tools" = true ∧ r.path ≠ "/tools/all"))
    (hinfo : firstInfo r.layerInfos = some info) :
    routeEntry now r = some (info.name, mkTool now r info) := by
  unfold routeEntry
  rw [if_neg hskip, hinfo]

/-- **C1.** After a scan over a bound route source: the produced registry
is independent of whatever descriptors were stored before (a scan fully
replaces the contents, so nothing survives except by re-discovery); every
descriptor returned by `get_all_tools` comes from a non-reserved route
(`/tools`-prefixed paths other than `/tools/all` are skipped) whose wrapper
chain carries capability metadata; and every such route's name is present
in the scanned registry. -/
theorem c1_scan_replaces_registry (now : String) (routes : List RouteInfo)
    (t1 t2 : List (String × ToolSchema)) :
    (scanAndRegisterTools now { app := some routes, tools := t1 }).tools
      = (scanAndRegisterTools now { app := some routes, tools := t2 }).tools
  ∧ (∀ ts ∈ getAllTools
        (scanAndRegisterTools now { app := some routes, tools := t1 }),
      ∃ r ∈ routes,
        ¬(pyStartsWith r.path "/tools" = true ∧ r.path ≠ "/tools/all")
        ∧ ∃ info, firstInfo r.layerInfos = some info ∧ ts = mkTool now r info)
  ∧ (∀ r ∈ routes, ∀ info : ToolInfo,
      ¬(pyStartsWith r.path "/tools" = true ∧ r.path ≠ "/tools/all") →
      firstInfo r.layerInfos = some info →
      (lookupKey
        (scanAndRegisterTools now { app := some routes, tools := t1 }).tools
        info.name).isSome) := by
  refine ⟨rfl, ?_, ?_⟩
  · intro ts hts
    obtain ⟨p, hp, rfl⟩ := List.mem_map.mp hts
    rcases mem_scanFold (show p ∈ routes.foldl (scanStep now) [] from hp) with
      hacc | ⟨r, hr, he⟩
    · cases hacc
    · obtain ⟨hskip, info, hinfo, rfl⟩ := routeEntry_some_elim he
      exact ⟨r, hr, hskip, info, hinfo, rfl⟩
  · intro r hr info hskip hinfo
    have he : routeEntry now r = some (info.name, mkTool now r info) :=
      routeEntry_of_info hskip hinfo
    show (lookupKey (scanTools now routes) info.name).isSome
    rw [lookupKey_scanTools]
    exact lastFold_isSome hr he none

/-- Witness for `c1_scan_replaces_registry` over the demo route list
`[get_document, internal_stats]` with a stale pre-scan registry. -/
theorem c1_scan_replaces_registry_witness :
    (∃ r ∈ [getDocumentRoute, internalStatsRoute],
        ¬(pyStartsWith r.path "/tools" = true ∧ r.path ≠ "/tools/all")
        ∧ ∃ info, firstInfo r.layerInfos = some info
            ∧ mkTool "2023-01-01T00:00:00" getDocumentRoute getDocumentInfo
                = mkTool "2023-01-01T00:00:00" r info)
  ∧ (lookupKey
      (scanAndRegisterTools "2023-01-01T00:00:00"
        { app := some [getDocumentRoute, internalStatsRoute],
          tools := [("stale", staleTool)] }).tools
      "get_document").isSome := by
  constructor
  · exact (c1_scan_replaces_registry "2023-01-01T00:00:00"
      [getDocumentRoute, internalStatsRoute] [("stale", staleTool)] []).2.1
      (mkTool "2023-01-01T00:00:00" getDocumentRoute getDocumentInfo)
      (by decide)
  · exact (c1_scan_replaces_registry "2023-01-01T00:00:00"
      [getDocumentRoute, internalStatsRoute] [("stale", staleTool)] []).2.2
      getDocumentRoute (List.mem_cons_self _ _) getDocumentInfo
      (by decide) rfl

/-- **C9.** Duplicate names resolve last-write-wins: the scanned registry
maps each name to the descriptor of the most recently discovered route
producing it; a scan yields at most one entry per name; `register_tool`
overwrites an existing entry of the same name; and on the two concrete
routes both named `dup`, the single surviving descriptor is the one built
from the later-enumerated route. -/
theorem c9_last_write_wins (now n : String) (routes : List RouteInfo)
    (st : RegistryState) (t : ToolSchema) :
    lookupKey (scanTools now routes) n = lastNamed now n routes
  ∧ ((scanTools now routes).map Prod.fst).Nodup
  ∧ lookupKey (registerTool st t).tools t.name = some t
  ∧ lookupKey (scanTools now [dupRouteA, dupRouteB]) "dup"
      = some (mkTool now dupRouteB dupInfoB) :=
  ⟨lookupKey_scanTools now n routes,
   keys_nodup_scanFold now routes [] (by simp),
   lookupKey_setKey_self _ _ _,
   rfl⟩

/-- The property sub-schema registered under `k` in an extracted object
schema. -/
def propSchema (m : JMap) (k : String) : Option JMap :=
  match m.get "properties" with
  | some (.obj props) =>
      match props.get k with
      | some (.obj p) => some p
      | _ => none
  | _ => none

/-- The input schema the engine derives for `get_document`. -/
def gdExpectedSchema : JMap :=
  JMap.ofList
    [("type", .str "object"),
     ("properties", .obj (JMap.ofList
        [("doc_id", .obj (JMap.ofList
           [("type", .str "string"),
            ("description", .str "Text string"),
            ("in", .str "path")])),
         ("include_metadata", .obj (JMap.ofList
           [("type", .str "boolean"),
            ("description", .str "Boolean value"),
            ("in", .str "query")]))])),
     ("required", .arr (.cons (.str "doc_id") .nil))]

/-- The example object the engine derives for `get_document`. -/
def gdExpectedExample : JMap :=
  JMap.ofList [("doc_id", .str "example_string"),
               ("include_metadata", .bool false)]

/-- One loop iteration appends the parameter to `required` exactly when it
declares no default value (`tools.py:411-413`). -/
theorem processOneParam_required (pathParams : List String) (p : Param)
    (props : JMap) (req : List String) (ex : JMap)
    (r : JMap × List String × JMap)
    (h : processOneParam pathParams p props req ex = .ok r) :
    r.2.1 = if declaresNoDefault p then req ++ [p.name] else req := by
  unfold processOneParam at h
  rcases hty : (match p.ann with
      | some a => tyToSchema a
      | none => .ok (JMap.ofList [("type", Json.str "string")], none) :
        Except String (JMap × Option Json)) with e | rr
  · rw [hty] at h
    simp at h
  · rw [hty] at h
    simp only [Except.ok.injEq] at h
    subst h
    rcases hd : p.dflt with _ | v | ⟨kind, d, desc, mex⟩
    · simp [declaresNoDefault, hd]
    · simp [declaresNoDefault, hd]
    · cases d <;> simp [declaresNoDefault, hd]

/-- The `required` list a parameter loop produces is the incoming list
extended by exactly the processed parameters that declare no default. -/
theorem processParams_required (pathParams : List String) (ps : List Param)
    (props : JMap) (req : List String) (ex : JMap)
    (r : JMap × List String × JMap)
    (h : processParams pathParams ps props req ex = .ok r) :
    r.2.1 = req ++ (ps.filter
        (fun p => includedParam p && declaresNoDefault p)).map Param.name := by
  induction ps generalizing props req ex with
  | nil =>
      unfold processParams at h
      cases h
      simp
  | cons p rest ih =>
      unfold processParams at h
      split at h
      · next hcond =>
          rw [ih _ _ _ h]
          have hinc : includedParam p = false := by
            unfold includedParam
            rw [hcond]
            rfl
          simp [List.filter_cons, hinc]
      · next hcond =>
          have hinc : includedParam p = true := by
            unfold includedParam
            rw [eq_false_of_ne_true hcond]
            rfl
          rcases hone : processOneParam pathParams p props req ex with
            e | ⟨props2, req2, ex2⟩
          · rw [hone] at h
            simp at h
          · rw [hone] at h
            rw [ih _ _ _ h]
            have h2 := processOneParam_required _ _ _ _ _ _ hone
            simp only at h2
            rw [h2]
            by_cases hnd : declaresNoDefault p = true
            · simp [List.filter_cons, hinc, hnd]
            · simp [List.filter_cons, hinc, hnd]

/-- **C5 (counterexample).** The claim says `include_metadata`'s plain
declared default `False` is copied into that property's schema as a
`default` field.  It is not: `tools.py:401` writes `default` only when the
parameter's default object has a `default` attribute, which a FastAPI
marker object has but a plain Python value like `False` does not, so the
extracted `include_metadata` property carries no `default` key at all. -/
theorem c5_plain_default_counterexample :
    (propSchema
        (extractParamSchema getDocumentBase "/document/\x7bdoc_id\x7d").1
        "include_metadata").map (fun m => m.hasKey "default")
      = some false := rfl

/-- **C5 (amended).** For `get_document` (`/document/{doc_id}` with
`doc_id: str` and `include_metadata: bool = False`): `doc_id` is classified
location `path` and required; `include_metadata` is classified location
`query` and not required; the plain default `False` is **not** copied into
the schema (only marker-object defaults are), though the derived example
object does carry `include_metadata = false`.  In general a parameter
lands in `required` exactly when it declares no default value (an empty
default slot, or a marker default of `...`). -/
theorem c5_param_classification :
    extractParamSchema getDocumentBase "/document/\x7bdoc_id\x7d"
      = (gdExpectedSchema, some (.obj gdExpectedExample))
  ∧ (∀ (pathParams : List String) (ps : List Param) (props : JMap)
        (req : List String) (ex : JMap) (r : JMap × List String × JMap),
      processParams pathParams ps props req ex = .ok r →
      r.2.1 = req ++ (ps.filter
          (fun p => includedParam p && declaresNoDefault p)).map Param.name) :=
  ⟨rfl, processParams_required⟩

/-- Witness for `c5_param_classification`: the parameter loop run on
`get_document`'s signature produces exactly `["doc_id"]` as the required
list — the one parameter declaring no default. -/
theorem c5_param_classification_witness :
    (["doc_id"] : List String)
      = [] ++ (getDocumentBase.params.filter
          (fun p => includedParam p && declaresNoDefault p)).map Param.name :=
  c5_param_classification.2 ["doc_id"] getDocumentBase.params .nil [] .nil
    ((JMap.ofList
        [("doc_id", .obj (JMap.ofList
           [("type", .str "string"),
            ("description", .str "Text string"),
            ("in", .str "path")])),
         ("include_metadata", .obj (JMap.ofList
           [("type", .str "boolean"),
            ("description", .str "Boolean value"),
            ("in", .str "query")]))]),
     ["doc_id"], gdExpectedExample) rfl

end MCPTools
